import Mathlib

/-!
Verification of the FootTable tournament backend (src/tournament.py).

The repository is a flat set of Flask request handlers over a relational
store with entities Atleta, Torneio, Categoria, Inscricao, Jogo, Resultado
and Chaveamento.  We embed the store as lists of records and each handler
as a pure function from the store (plus the request data) to an HTTP
status code and the new store.  Database auto-increment ids are modelled
by explicit counters on the store; `datetime.utcnow()` is modelled by a
`now` field.  The random shuffle in bracket generation is modelled by an
explicit permutation parameter.  Date parsing (`strptime`) is kept as the
raw string, since no verified property depends on the parsed value.
-/

namespace FootTable

/-- An athlete row (model `Atleta`).  `ranking_posicao` is nullable. -/
structure Atleta where
  id : Nat
  nome : String
  email : String
  data_nascimento : Option String
  altura : Option Int
  peso : Option Int
  pais : Option String
  foto_url : Option String
  categoria : Option String
  ranking_posicao : Option Nat
  ativo : Bool
  deriving DecidableEq, Repr

/-- A registration row (model `Inscricao`). -/
structure Inscricao where
  id : Nat
  torneio_id : Nat
  categoria_id : Nat
  atleta_id : Nat
  parceiro_id : Option Nat
  nome_equipe : Option String
  status : String
  deriving DecidableEq, Repr

/-- A match row (model `Jogo`).  `equipe1_id`/`equipe2_id` are registration
ids; scores are nullable. -/
structure Jogo where
  id : Nat
  torneio_id : Nat
  categoria_id : Nat
  fase : String
  rodada : Nat
  equipe1_id : Nat
  equipe2_id : Nat
  placar_equipe1 : Option Int
  placar_equipe2 : Option Int
  status : String
  observacoes : Option String
  deriving DecidableEq, Repr

/-- The bracket structure serialized into `estrutura_json`: the shuffled
participant list, an (always empty) list of phases, and a type tag. -/
structure Estrutura where
  participantes : List Inscricao
  fases : List String
  tipo : String
  deriving DecidableEq, Repr

/-- A bracket row (model `Chaveamento`), unique per (torneio, categoria)
as far as the handlers maintain it. -/
structure Chaveamento where
  id : Nat
  torneio_id : Nat
  categoria_id : Nat
  estrutura : Estrutura
  data_atualizacao : Nat
  deriving DecidableEq, Repr

/-- The relational store visible to the verified handlers, with explicit
auto-increment counters and a clock value used for refreshed timestamps. -/
structure Store where
  atletas : List Atleta
  inscricoes : List Inscricao
  jogos : List Jogo
  chaveamentos : List Chaveamento
  nextAtletaId : Nat
  nextInscricaoId : Nat
  nextJogoId : Nat
  nextChaveamentoId : Nat
  now : Nat
  deriving DecidableEq, Repr

/-- Modelled from the spec: the `Jogo` model file is not under src/; its
status column for newly generated matches defaults to "agendado"
(spec: Match status scheduled/in_progress/finished, created in bulk by
bracket generation, later set to finished by the result endpoint). -/
def jogoStatusInicial : String := "agendado"

/-- Modelled from the spec: the `Inscricao` model file is not under src/;
new registrations get the model's default status column value (the spec
only names "confirmada" as the status relevant to bracket generation; the
creation handler does not set it). -/
def inscricaoStatusInicial : String := "pendente"

/-- `Inscricao.query.filter_by(torneio_id=..., categoria_id=..., status='confirmada')`:
the confirmed registrations of a (tournament, category) pair. -/
def confirmadas (s : Store) (tid cid : Nat) : List Inscricao :=
  s.inscricoes.filter fun i =>
    i.torneio_id == tid && i.categoria_id == cid && i.status == "confirmada"

/-- The request body of POST /atletas (required keys typed, optional keys
as options, mirroring `data.get`). -/
structure AtletaInput where
  nome : String
  email : String
  data_nascimento : Option String
  altura : Option Int
  peso : Option Int
  pais : Option String
  foto_url : Option String
  categoria : Option String
  deriving DecidableEq, Repr

/-- `create_atleta`: reject with 400 if the email already exists, else
insert the new athlete (active, unranked) and return 201. -/
def create_atleta (s : Store) (data : AtletaInput) : Nat × Store :=
  if s.atletas.any (fun a => a.email == data.email) then
    (400, s)
  else
    let atleta : Atleta :=
      { id := s.nextAtletaId
        nome := data.nome
        email := data.email
        data_nascimento := data.data_nascimento
        altura := data.altura
        peso := data.peso
        pais := data.pais
        foto_url := data.foto_url
        categoria := data.categoria
        ranking_posicao := none
        ativo := true }
    (201, { s with atletas := s.atletas ++ [atleta]
                   nextAtletaId := s.nextAtletaId + 1 })

/-- The SQL ordering `Atleta.ranking_posicao.asc().nullslast()` as a
boolean comparison: ranked before unranked, ranked among themselves by
position ascending. -/
def rankLE (a b : Atleta) : Bool :=
  match a.ranking_posicao, b.ranking_posicao with
  | some x, some y => x ≤ y
  | some _, none => true
  | none, some _ => false
  | none, none => true

/-- Apply an optional exact-match filter, as `if categoria: query = query.filter_by(...)`. -/
def filterOpt (f : Atleta → Option String) (v : Option String) (l : List Atleta) : List Atleta :=
  match v with
  | none => l
  | some x => l.filter fun a => f a == some x

/-- `get_atletas`: active athletes, optional category/country filters,
ordered by ranking position ascending nulls last, paginated.  Returns the
page items. -/
def get_atletas (s : Store) (categoria pais : Option String) (page per_page : Nat) : List Atleta :=
  let q := s.atletas.filter fun a => a.ativo
  let q := filterOpt (fun a => a.categoria) categoria q
  let q := filterOpt (fun a => a.pais) pais q
  let q := q.mergeSort rankLE
  (q.drop ((page - 1) * per_page)).take per_page

/-- `get_ranking`: active athletes, optional category filter, ordered by
ranking position ascending nulls last, capped at `limit`. -/
def get_ranking (s : Store) (categoria : Option String) (limit : Nat) : List Atleta :=
  let q := s.atletas.filter fun a => a.ativo
  let q := filterOpt (fun a => a.categoria) categoria q
  (q.mergeSort rankLE).take limit

/-- `criar_inscricao`: reject with 400 if a registration with the same
(torneio, categoria, atleta) triple exists, else insert and return 201. -/
def criar_inscricao (s : Store) (tid cid aid : Nat)
    (parceiro_id : Option Nat) (nome_equipe : Option String) : Nat × Store :=
  if s.inscricoes.any (fun i =>
      i.torneio_id == tid && i.categoria_id == cid && i.atleta_id == aid) then
    (400, s)
  else
    let inscricao : Inscricao :=
      { id := s.nextInscricaoId
        torneio_id := tid
        categoria_id := cid
        atleta_id := aid
        parceiro_id := parceiro_id
        nome_equipe := nome_equipe
        status := inscricaoStatusInicial }
    (201, { s with inscricoes := s.inscricoes ++ [inscricao]
                   nextInscricaoId := s.nextInscricaoId + 1 })

/-- The first-phase match rows created by the generation loop
`for i in range(0, len(inscricoes), 2): if i + 1 < len(inscricoes): ...`:
adjacent pairs of the shuffled list become round-1 matches; a trailing
unpaired element produces nothing. -/
def mkJogos (tid cid : Nat) : Nat → List Inscricao → List Jogo
  | _, [] => []
  | _, [_] => []
  | nid, a :: b :: rest =>
    { id := nid
      torneio_id := tid
      categoria_id := cid
      fase := "primeira_fase"
      rodada := 1
      equipe1_id := a.id
      equipe2_id := b.id
      placar_equipe1 := none
      placar_equipe2 := none
      status := jogoStatusInicial
      observacoes := none } :: mkJogos tid cid (nid + 1) rest

/-- Mutating the first bracket row matching the pair (the object returned
by `.first()`): overwrite its structure and refresh its timestamp. -/
def updateChaveamento (tid cid : Nat) (e : Estrutura) (now : Nat) :
    List Chaveamento → List Chaveamento
  | [] => []
  | c :: rest =>
    if c.torneio_id == tid && c.categoria_id == cid then
      { c with estrutura := e, data_atualizacao := now } :: rest
    else
      c :: updateChaveamento tid cid e now rest

/-- The create-or-update step of `gerar_chaveamento`: if a bracket row
exists for the pair (`.first()`), overwrite its structure and refresh its
timestamp; otherwise insert a fresh row. -/
def upsertChaveamento (s : Store) (tid cid : Nat) (e : Estrutura) : Store :=
  match s.chaveamentos.find? (fun c => c.torneio_id == tid && c.categoria_id == cid) with
  | some _ =>
    { s with chaveamentos := updateChaveamento tid cid e s.now s.chaveamentos }
  | none =>
    { s with
        chaveamentos := s.chaveamentos ++
          [({ id := s.nextChaveamentoId,
              torneio_id := tid,
              categoria_id := cid,
              estrutura := e,
              data_atualizacao := s.now } : Chaveamento)],
        nextChaveamentoId := s.nextChaveamentoId + 1 }

/-- `gerar_chaveamento`: load confirmed registrations for the pair, 400 if
fewer than 2; shuffle; build the structure; upsert the bracket row; create
one first-round match per full adjacent pair; commit.  The shuffle is an
explicit parameter standing for `random.shuffle`. -/
def gerar_chaveamento (s : Store) (tid cid : Nat)
    (shuffle : List Inscricao → List Inscricao) : Nat × Store :=
  let inscricoes := confirmadas s tid cid
  if inscricoes.length < 2 then
    (400, s)
  else
    let embaralhadas := shuffle inscricoes
    let estrutura : Estrutura :=
      { participantes := embaralhadas
        fases := []
        tipo := "eliminacao_simples" }
    let s1 := upsertChaveamento s tid cid estrutura
    let novos := mkJogos tid cid s1.nextJogoId embaralhadas
    (201, { s1 with jogos := s1.jogos ++ novos
                    nextJogoId := s1.nextJogoId + novos.length })

/-- `get_chaveamento`: the stored bracket for the pair plus all matches of
the pair; `none` (404) if no bracket exists. -/
def get_chaveamento (s : Store) (tid cid : Nat) : Option (Chaveamento × List Jogo) :=
  match s.chaveamentos.find? (fun c => c.torneio_id == tid && c.categoria_id == cid) with
  | none => none
  | some c =>
    some (c, s.jogos.filter fun j => j.torneio_id == tid && j.categoria_id == cid)

/-- Mutating the match object fetched by primary key: overwrite both
scores, set status to "finalizado", store the optional notes. -/
def updateJogo (jid : Nat) (p1 p2 : Int) (obs : Option String) :
    List Jogo → List Jogo
  | [] => []
  | j :: rest =>
    if j.id == jid then
      { j with placar_equipe1 := some p1
               placar_equipe2 := some p2
               status := "finalizado"
               observacoes := obs } :: rest
    else
      j :: updateJogo jid p1 p2 obs rest

/-- `inserir_resultado`: fetch the match by id, overwrite both scores, set
status to "finalizado", store optional notes, commit.  When no match row
carries the id, `get_or_404` raises NotFound inside the handler's `try`;
the generic `except Exception` catches it, rolls back and returns 500 with
the stringified error — not 404. -/
def inserir_resultado (s : Store) (jid : Nat) (p1 p2 : Int)
    (obs : Option String) : Nat × Store :=
  match s.jogos.find? (fun j => j.id == jid) with
  | none => (500, s)
  | some _ => (200, { s with jogos := updateJogo jid p1 p2 obs s.jogos })

/-- Whether a registration id appears as either team of one of the matches. -/
def assignedIn (jogos : List Jogo) (iid : Nat) : Bool :=
  jogos.any fun j => j.equipe1_id == iid || j.equipe2_id == iid

/-- An empty store, used to evaluate the theorems on concrete inputs. -/
def emptyStore : Store :=
  { atletas := [], inscricoes := [], jogos := [], chaveamentos := [],
    nextAtletaId := 1, nextInscricaoId := 1, nextJogoId := 1,
    nextChaveamentoId := 1, now := 0 }

/-- A confirmed registration of athlete `aid` with id `iid` in tournament 1,
category 1, used for concrete evaluations. -/
def insc (iid aid : Nat) : Inscricao :=
  { id := iid, torneio_id := 1, categoria_id := 1, atleta_id := aid,
    parceiro_id := none, nome_equipe := none, status := "confirmada" }

/-- A sample athlete record used for concrete evaluations. -/
def atl (aid : Nat) (email : String) (pos : Option Nat) (ativo : Bool) : Atleta :=
  { id := aid, nome := "A", email := email, data_nascimento := none,
    altura := none, peso := none, pais := none, foto_url := none,
    categoria := none, ranking_posicao := pos, ativo := ativo }

/-- A sample scheduled match row with id `jid` in tournament 1, category 1. -/
def jogoSample (jid : Nat) : Jogo :=
  { id := jid, torneio_id := 1, categoria_id := 1, fase := "primeira_fase",
    rodada := 1, equipe1_id := 1, equipe2_id := 2, placar_equipe1 := none,
    placar_equipe2 := none, status := jogoStatusInicial, observacoes := none }

/-- C2: a bracket-generation request on a pair with fewer than 2 confirmed
registrations returns the validation error 400 and leaves the store
unchanged: no bracket row and no match row is created or modified. -/
theorem C2_gerar_insuficiente (s : Store) (tid cid : Nat)
    (shuffle : List Inscricao → List Inscricao)
    (h : (confirmadas s tid cid).length < 2) :
    gerar_chaveamento s tid cid shuffle = (400, s) := by
  unfold gerar_chaveamento
  simp only [if_pos h]

theorem C2_gerar_insuficiente_witness :
    (confirmadas emptyStore 1 1).length < 2 ∧
      gerar_chaveamento emptyStore 1 1 id = (400, emptyStore) :=
  ⟨by decide, C2_gerar_insuficiente emptyStore 1 1 id (by decide)⟩

/-- C5: the claim (and the spec) say a nonexistent match id yields a
not-found 404, but the code's generic `except Exception` catches the
NotFound raised by `get_or_404` and answers 500: on a store with no match
rows, submitting a result to match id 7 evaluates to (500, unchanged
store). -/
theorem C5_resultado_inexistente_bug :
    inserir_resultado emptyStore 7 3 1 none = (500, emptyStore) := by
  decide

/-- C7: an athlete-creation request whose email equals the email of an
already stored athlete returns the conflict error 400 and creates no new
athlete record: the store is unchanged. -/
theorem C7_atleta_email_duplicado (s : Store) (data : AtletaInput)
    (h : ∃ a ∈ s.atletas, a.email = data.email) :
    create_atleta s data = (400, s) := by
  have hany : s.atletas.any (fun a => a.email == data.email) = true := by
    rw [List.any_eq_true]
    obtain ⟨a, ha, he⟩ := h
    exact ⟨a, ha, by simpa using he⟩
  unfold create_atleta
  simp only [hany, if_pos]

/-- The POST /atletas payload used in the concrete evaluations. -/
def atlInput (email : String) : AtletaInput :=
  { nome := "B", email := email, data_nascimento := none, altura := none,
    peso := none, pais := none, foto_url := none, categoria := none }

/-- A one-athlete store used for concrete evaluations. -/
def storeUmAtleta : Store :=
  { emptyStore with atletas := [atl 1 "x@y" (some 1) true], nextAtletaId := 2 }

theorem C7_atleta_email_duplicado_witness :
    (∃ a ∈ storeUmAtleta.atletas, a.email = (atlInput "x@y").email) ∧
      create_atleta storeUmAtleta (atlInput "x@y") = (400, storeUmAtleta) :=
  ⟨⟨atl 1 "x@y" (some 1) true, by decide, by decide⟩,
    C7_atleta_email_duplicado storeUmAtleta (atlInput "x@y")
      ⟨atl 1 "x@y" (some 1) true, by decide, by decide⟩⟩

/-- C8: a registration-creation request whose (tournament, category,
athlete) triple equals that of a stored registration returns the conflict
error 400, creates no new registration and leaves the store (hence the
existing registration) unmodified. -/
theorem C8_inscricao_duplicada (s : Store) (tid cid aid : Nat)
    (parceiro_id : Option Nat) (nome_equipe : Option String)
    (h : ∃ i ∈ s.inscricoes,
      i.torneio_id = tid ∧ i.categoria_id = cid ∧ i.atleta_id = aid) :
    criar_inscricao s tid cid aid parceiro_id nome_equipe = (400, s) := by
  have hany : s.inscricoes.any (fun i =>
      i.torneio_id == tid && i.categoria_id == cid && i.atleta_id == aid) = true := by
    rw [List.any_eq_true]
    obtain ⟨i, hi, h1, h2, h3⟩ := h
    exact ⟨i, hi, by simp [h1, h2, h3]⟩
  unfold criar_inscricao
  simp only [hany, if_pos]

/-- A one-registration store used for concrete evaluations. -/
def storeUmaInscricao : Store :=
  { emptyStore with inscricoes := [insc 1 1], nextInscricaoId := 2 }

theorem C8_inscricao_duplicada_witness :
    (∃ i ∈ storeUmaInscricao.inscricoes,
        i.torneio_id = 1 ∧ i.categoria_id = 1 ∧ i.atleta_id = 1) ∧
      criar_inscricao storeUmaInscricao 1 1 1 none none = (400, storeUmaInscricao) :=
  ⟨⟨insc 1 1, by decide, by decide⟩,
    C8_inscricao_duplicada storeUmaInscricao 1 1 1 none none
      ⟨insc 1 1, by decide, by decide⟩⟩

/-- `updateJogo` does not change the ids of the match rows. -/
theorem updateJogo_map_id (jid : Nat) (p1 p2 : Int) (obs : Option String) :
    ∀ l : List Jogo, (updateJogo jid p1 p2 obs l).map (fun j => j.id) = l.map (fun j => j.id)
  | [] => rfl
  | j :: rest => by
    by_cases h : (j.id == jid) = true
    · simp [updateJogo, h]
    · simp [updateJogo, h, updateJogo_map_id jid p1 p2 obs rest]

/-- Overwriting a match result twice with the same payload equals
overwriting it once. -/
theorem updateJogo_idem (jid : Nat) (p1 p2 : Int) (obs : Option String) :
    ∀ l : List Jogo,
      updateJogo jid p1 p2 obs (updateJogo jid p1 p2 obs l) = updateJogo jid p1 p2 obs l
  | [] => rfl
  | j :: rest => by
    by_cases h : (j.id == jid) = true
    · simp [updateJogo, h]
    · simp [updateJogo, h, updateJogo_idem jid p1 p2 obs rest]

/-- After `updateJogo`, some row carries the match id with exactly the
submitted scores, status "finalizado" and the submitted notes. -/
theorem updateJogo_mem (jid : Nat) (p1 p2 : Int) (obs : Option String) :
    ∀ l : List Jogo, (∃ j ∈ l, j.id = jid) →
      ∃ j ∈ updateJogo jid p1 p2 obs l,
        j.id = jid ∧ j.placar_equipe1 = some p1 ∧ j.placar_equipe2 = some p2 ∧
        j.status = "finalizado" ∧ j.observacoes = obs
  | [], h => absurd h (by simp)
  | j :: rest, h => by
    by_cases hj : (j.id == jid) = true
    · have heq : updateJogo jid p1 p2 obs (j :: rest) = ({ j with placar_equipe1 := some p1, placar_equipe2 := some p2, status := "finalizado", observacoes := obs }) :: rest := by
        simp [updateJogo, hj]
      rw [heq]
      refine ⟨_, List.mem_cons_self _ _, ?_, rfl, rfl, rfl, rfl⟩
      simpa using hj
    · obtain ⟨j0, hj0, hid⟩ := h
      rcases List.mem_cons.mp hj0 with rfl | hmem
      · exact absurd (by simp [hid]) hj
      · obtain ⟨j', hj', hprops⟩ := updateJogo_mem jid p1 p2 obs rest ⟨j0, hmem, hid⟩
        exact ⟨j', by simp [updateJogo, hj, hj'], hprops⟩

/-- C6: submitting a result to an existing match returns 200, sets the
match's two scores to exactly the submitted values, its status to
"finalizado" and its notes to the submitted notes regardless of the prior
state, and submitting the same payload a second time leaves the store in
the same state as after the first submission. -/
theorem C6_resultado_sobrescreve (s : Store) (jid : Nat) (p1 p2 : Int)
    (obs : Option String) (h : ∃ j ∈ s.jogos, j.id = jid) :
    (inserir_resultado s jid p1 p2 obs).1 = 200 ∧
    (∃ j ∈ (inserir_resultado s jid p1 p2 obs).2.jogos,
        j.id = jid ∧ j.placar_equipe1 = some p1 ∧ j.placar_equipe2 = some p2 ∧
        j.status = "finalizado" ∧ j.observacoes = obs) ∧
    inserir_resultado (inserir_resultado s jid p1 p2 obs).2 jid p1 p2 obs =
      inserir_resultado s jid p1 p2 obs := by
  have hfind : (s.jogos.find? (fun j => j.id == jid)).isSome := by
    rw [List.find?_isSome]
    obtain ⟨j, hj, hid⟩ := h
    exact ⟨j, hj, by simp [hid]⟩
  obtain ⟨j0, hj0⟩ := Option.isSome_iff_exists.mp hfind
  have hres : inserir_resultado s jid p1 p2 obs =
      (200, { s with jogos := updateJogo jid p1 p2 obs s.jogos }) := by
    unfold inserir_resultado
    rw [hj0]
  refine ⟨by rw [hres], ?_, ?_⟩
  · rw [hres]
    exact updateJogo_mem jid p1 p2 obs s.jogos h
  · have hmem2 : ∃ j ∈ updateJogo jid p1 p2 obs s.jogos, j.id = jid := by
      obtain ⟨j', hj', hid', _⟩ := updateJogo_mem jid p1 p2 obs s.jogos h
      exact ⟨j', hj', hid'⟩
    have hfind2 : ((updateJogo jid p1 p2 obs s.jogos).find? (fun j => j.id == jid)).isSome := by
      rw [List.find?_isSome]
      obtain ⟨j, hj, hid⟩ := hmem2
      exact ⟨j, hj, by simp [hid]⟩
    obtain ⟨j1, hj1⟩ := Option.isSome_iff_exists.mp hfind2
    rw [hres]
    unfold inserir_resultado
    simp only [hj1]
    rw [updateJogo_idem]

/-- A one-match store used for concrete evaluations. -/
def storeUmJogo : Store :=
  { emptyStore with jogos := [jogoSample 5], nextJogoId := 6 }

theorem C6_resultado_sobrescreve_witness :
    (∃ j ∈ storeUmJogo.jogos, j.id = 5) ∧
      ((inserir_resultado storeUmJogo 5 3 1 none).1 = 200 ∧
        (∃ j ∈ (inserir_resultado storeUmJogo 5 3 1 none).2.jogos,
            j.id = 5 ∧ j.placar_equipe1 = some 3 ∧ j.placar_equipe2 = some 1 ∧
            j.status = "finalizado" ∧ j.observacoes = none) ∧
        inserir_resultado (inserir_resultado storeUmJogo 5 3 1 none).2 5 3 1 none =
          inserir_resultado storeUmJogo 5 3 1 none) :=
  ⟨⟨jogoSample 5, by decide, by decide⟩,
    C6_resultado_sobrescreve storeUmJogo 5 3 1 none ⟨jogoSample 5, by decide, by decide⟩⟩

/-- The nulls-last ranking comparison is transitive. -/
theorem rankLE_trans (a b c : Atleta) (hab : rankLE a b) (hbc : rankLE b c) :
    rankLE a c := by
  unfold rankLE at *
  cases ha : a.ranking_posicao <;> cases hb : b.ranking_posicao <;>
    cases hc : c.ranking_posicao <;> (simp_all; try omega)

/-- The nulls-last ranking comparison is total. -/
theorem rankLE_total (a b : Atleta) : rankLE a b || rankLE b a := by
  unfold rankLE
  cases a.ranking_posicao <;> cases b.ranking_posicao <;> (simp; try omega)

/-- Membership in an optionally filtered list implies membership in the
original list. -/
theorem mem_of_mem_filterOpt (f : Atleta → Option String) (v : Option String)
    (l : List Atleta) (a : Atleta) (h : a ∈ filterOpt f v l) : a ∈ l := by
  cases v with
  | none => exact h
  | some x => exact List.mem_of_mem_filter h

/-- C9: the ranking listing has length at most the requested limit, and is
pairwise ordered so that ranked athletes come in ascending position order
and every unranked athlete (no ranking position) comes after every ranked
one. -/
theorem C9_ranking_ordenado (s : Store) (categoria : Option String) (limit : Nat) :
    (get_ranking s categoria limit).length ≤ limit ∧
    (get_ranking s categoria limit).Pairwise (fun a b =>
      (∀ x y, a.ranking_posicao = some x → b.ranking_posicao = some y → x ≤ y) ∧
      (a.ranking_posicao = none → b.ranking_posicao = none)) := by
  constructor
  · exact List.length_take_le _ _
  · have hsorted :
        ((filterOpt (fun a => a.categoria) categoria
            (s.atletas.filter fun a => a.ativo)).mergeSort rankLE).Pairwise
          (fun a b => rankLE a b = true) :=
      List.sorted_mergeSort (fun a b c => rankLE_trans a b c) rankLE_total _
    have htake := hsorted.sublist (List.take_sublist limit _)
    refine htake.imp ?_
    intro a b h
    constructor
    · intro x y hx hy
      unfold rankLE at h
      rw [hx, hy] at h
      simpa using h
    · intro ha
      cases hb : b.ranking_posicao with
      | none => rfl
      | some y =>
        unfold rankLE at h
        rw [ha, hb] at h
        simp at h

/-- C10: every athlete returned by the athlete-list endpoint or the ranking
endpoint has its active flag set, whatever the category, country,
pagination or limit parameters are; inactive athletes never appear. -/
theorem C10_apenas_ativos (s : Store) (categoria pais : Option String)
    (page per_page limit : Nat) :
    (∀ a ∈ get_atletas s categoria pais page per_page, a.ativo = true) ∧
    (∀ a ∈ get_ranking s categoria limit, a.ativo = true) := by
  constructor
  · intro a ha
    unfold get_atletas at ha
    have h1 := List.mem_of_mem_take ha
    have h2 := List.mem_of_mem_drop h1
    have h3 := List.mem_mergeSort.mp h2
    have h4 := mem_of_mem_filterOpt _ pais _ a h3
    have h5 := mem_of_mem_filterOpt _ categoria _ a h4
    exact List.of_mem_filter h5
  · intro a ha
    unfold get_ranking at ha
    have h1 := List.mem_of_mem_take ha
    have h2 := List.mem_mergeSort.mp h1
    have h3 := mem_of_mem_filterOpt _ categoria _ a h2
    exact List.of_mem_filter h3

/-- The registration ids consumed by the pairing loop: ids of the elements
that belong to a full adjacent pair, in order. -/
def pairedIds : List Inscricao → List Nat
  | [] => []
  | [_] => []
  | a :: b :: rest => a.id :: b.id :: pairedIds rest

/-- The generation loop creates one match per full adjacent pair:
`floor (length / 2)` matches. -/
theorem mkJogos_length (tid cid : Nat) :
    ∀ (l : List Inscricao) (n : Nat), (mkJogos tid cid n l).length = l.length / 2
  | [], _ => rfl
  | [_], _ => by simp [mkJogos]
  | a :: b :: rest, n => by
    simp only [mkJogos, List.length_cons, mkJogos_length tid cid rest (n + 1)]
    omega

/-- Every generated match is a round-1 first-phase match of the pair and
links ids of the shuffled participant list. -/
theorem mkJogos_mem (tid cid : Nat) :
    ∀ (l : List Inscricao) (n : Nat) (j : Jogo), j ∈ mkJogos tid cid n l →
      j.torneio_id = tid ∧ j.categoria_id = cid ∧ j.fase = "primeira_fase" ∧
      j.rodada = 1 ∧ j.equipe1_id ∈ l.map (fun i => i.id) ∧
      j.equipe2_id ∈ l.map (fun i => i.id)
  | [], _, _, h => absurd h (by simp [mkJogos])
  | [_], _, _, h => absurd h (by simp [mkJogos])
  | a :: b :: rest, n, j, h => by
    rcases List.mem_cons.mp h with rfl | hmem
    · exact ⟨rfl, rfl, rfl, rfl, by simp, by simp⟩
    · obtain ⟨h1, h2, h3, h4, h5, h6⟩ := mkJogos_mem tid cid rest (n + 1) j hmem
      exact ⟨h1, h2, h3, h4, by simp [h5], by simp [h6]⟩

/-- Under distinct registration ids, every generated match links two
distinct registration ids. -/
theorem mkJogos_distintos (tid cid : Nat) :
    ∀ (l : List Inscricao) (n : Nat), (l.map (fun i => i.id)).Nodup →
      ∀ j ∈ mkJogos tid cid n l, j.equipe1_id ≠ j.equipe2_id
  | [], _, _, _, h => absurd h (by simp [mkJogos])
  | [_], _, _, _, h => absurd h (by simp [mkJogos])
  | a :: b :: rest, n, hnd, j, h => by
    rcases List.mem_cons.mp h with rfl | hmem
    · have := List.nodup_cons.mp hnd
      simpa using fun he => this.1 (by simp [he])
    · exact mkJogos_distintos tid cid rest (n + 1)
        ((List.nodup_cons.mp (List.nodup_cons.mp hnd).2).2) j hmem

/-- A registration id is assigned in the generated matches exactly when it
is one of the paired ids. -/
theorem assignedIn_mkJogos (tid cid : Nat) :
    ∀ (l : List Inscricao) (n iid : Nat),
      assignedIn (mkJogos tid cid n l) iid = decide (iid ∈ pairedIds l)
  | [], _, _ => by simp [mkJogos, pairedIds, assignedIn]
  | [_], _, _ => by simp [mkJogos, pairedIds, assignedIn]
  | a :: b :: rest, n, iid => by
    have ih := assignedIn_mkJogos tid cid rest (n + 1) iid
    simp only [assignedIn] at ih ⊢
    by_cases h1 : a.id = iid
    · simp [mkJogos, pairedIds, List.any_cons, h1]
    · by_cases h2 : b.id = iid
      · simp [mkJogos, pairedIds, List.any_cons, h2]
      · have h1' : iid ≠ a.id := fun he => h1 he.symm
        have h2' : iid ≠ b.id := fun he => h2 he.symm
        simp [mkJogos, pairedIds, List.any_cons, h1, h2, h1', h2', ih]

/-- Counting lemma: with distinct ids, the number of registrations whose id
is not among the paired ids is `length % 2` (one when odd, zero when even). -/
theorem length_filter_nao_pareado :
    ∀ l : List Inscricao, (l.map (fun i => i.id)).Nodup →
      (l.filter fun i => !decide (i.id ∈ pairedIds l)).length = l.length % 2
  | [], _ => rfl
  | [a], _ => by simp [pairedIds]
  | a :: b :: rest, hnd => by
    have hnd1 := List.nodup_cons.mp hnd
    have hnd2 := List.nodup_cons.mp hnd1.2
    have hane : a.id ∉ rest.map (fun i => i.id) := by
      intro hmem
      exact hnd1.1 (by simp [hmem])
    have hbne : b.id ∉ rest.map (fun i => i.id) := hnd2.1
    have hcongr : rest.filter (fun i => !decide (i.id ∈ pairedIds (a :: b :: rest))) =
        rest.filter (fun i => !decide (i.id ∈ pairedIds rest)) := by
      apply List.filter_congr
      intro i hi
      have hia : i.id ≠ a.id := fun he => hane (he ▸ List.mem_map_of_mem _ hi)
      have hib : i.id ≠ b.id := fun he => hbne (he ▸ List.mem_map_of_mem _ hi)
      simp [pairedIds, hia, hib]
    have hrec := length_filter_nao_pareado rest hnd2.2
    have hstep : (a :: b :: rest).filter (fun i => !decide (i.id ∈ pairedIds (a :: b :: rest))) =
        rest.filter (fun i => !decide (i.id ∈ pairedIds rest)) := by
      rw [List.filter_cons_of_neg, List.filter_cons_of_neg, hcongr]
      · simp [pairedIds]
      · simp [pairedIds]
    rw [hstep, hrec]
    simp only [List.length_cons]
    omega

/-- The bracket upsert touches only the bracket table: match rows, the
match id counter, registrations and athletes are untouched. -/
theorem upsertChaveamento_frame (s : Store) (tid cid : Nat) (e : Estrutura) :
    (upsertChaveamento s tid cid e).jogos = s.jogos ∧
    (upsertChaveamento s tid cid e).nextJogoId = s.nextJogoId ∧
    (upsertChaveamento s tid cid e).inscricoes = s.inscricoes ∧
    (upsertChaveamento s tid cid e).atletas = s.atletas := by
  unfold upsertChaveamento
  cases s.chaveamentos.find? (fun c => c.torneio_id == tid && c.categoria_id == cid) <;>
    exact ⟨rfl, rfl, rfl, rfl⟩

/-- Unfolding the successful branch of the generation endpoint. -/
theorem gerar_chaveamento_sucesso (s : Store) (tid cid : Nat)
    (shuffle : List Inscricao → List Inscricao)
    (h : 2 ≤ (confirmadas s tid cid).length) :
    gerar_chaveamento s tid cid shuffle =
      (201,
        { upsertChaveamento s tid cid
            { participantes := shuffle (confirmadas s tid cid), fases := [],
              tipo := "eliminacao_simples" } with
          jogos := s.jogos ++
            mkJogos tid cid s.nextJogoId (shuffle (confirmadas s tid cid)),
          nextJogoId := s.nextJogoId +
            (mkJogos tid cid s.nextJogoId (shuffle (confirmadas s tid cid))).length }) := by
  have hlt : ¬ (confirmadas s tid cid).length < 2 := Nat.not_lt.mpr h
  obtain ⟨hj, hn, -, -⟩ := upsertChaveamento_frame s tid cid
    { participantes := shuffle (confirmadas s tid cid), fases := [],
      tipo := "eliminacao_simples" }
  unfold gerar_chaveamento
  simp only [if_neg hlt, hj, hn]

/-- The new match rows of a successful generation, as seen in the store:
everything appended after the pre-existing match rows. -/
theorem gerar_chaveamento_novos (s : Store) (tid cid : Nat)
    (shuffle : List Inscricao → List Inscricao)
    (h : 2 ≤ (confirmadas s tid cid).length) :
    (gerar_chaveamento s tid cid shuffle).2.jogos.drop s.jogos.length =
      mkJogos tid cid s.nextJogoId (shuffle (confirmadas s tid cid)) := by
  rw [gerar_chaveamento_sucesso s tid cid shuffle h]
  exact List.drop_left _ _

/-- C1: on a pair with at least 2 confirmed registrations (with the store's
registration ids distinct and the shuffle a permutation), generation
returns 201 and creates exactly floor(N/2) new matches, each a round-1
"primeira_fase" match linking two distinct registration ids drawn from the
confirmed registrations; when N is odd, exactly one confirmed registration
is assigned to no newly created match. -/
theorem C1_gerar_jogos (s : Store) (tid cid : Nat)
    (shuffle : List Inscricao → List Inscricao)
    (hperm : (shuffle (confirmadas s tid cid)).Perm (confirmadas s tid cid))
    (hnodup : (s.inscricoes.map (fun i => i.id)).Nodup)
    (hN : 2 ≤ (confirmadas s tid cid).length) :
    (gerar_chaveamento s tid cid shuffle).1 = 201 ∧
    ((gerar_chaveamento s tid cid shuffle).2.jogos.drop s.jogos.length).length =
      (confirmadas s tid cid).length / 2 ∧
    (∀ j ∈ (gerar_chaveamento s tid cid shuffle).2.jogos.drop s.jogos.length,
      j.fase = "primeira_fase" ∧ j.rodada = 1 ∧ j.equipe1_id ≠ j.equipe2_id ∧
      j.equipe1_id ∈ (confirmadas s tid cid).map (fun i => i.id) ∧
      j.equipe2_id ∈ (confirmadas s tid cid).map (fun i => i.id)) ∧
    ((confirmadas s tid cid).length % 2 = 1 →
      ((confirmadas s tid cid).filter (fun i =>
        !assignedIn ((gerar_chaveamento s tid cid shuffle).2.jogos.drop s.jogos.length)
          i.id)).length = 1) := by
  have hconf : ((confirmadas s tid cid).map (fun i => i.id)).Nodup :=
    hnodup.sublist ((List.filter_sublist _).map _)
  have hshuf : ((shuffle (confirmadas s tid cid)).map (fun i => i.id)).Nodup :=
    ((hperm.map (fun i => i.id)).nodup_iff).mpr hconf
  have hnovos := gerar_chaveamento_novos s tid cid shuffle hN
  refine ⟨?_, ?_, ?_, ?_⟩
  · rw [gerar_chaveamento_sucesso s tid cid shuffle hN]
  · rw [hnovos, mkJogos_length, hperm.length_eq]
  · intro j hj
    rw [hnovos] at hj
    obtain ⟨-, -, h3, h4, h5, h6⟩ := mkJogos_mem tid cid _ _ j hj
    have hd := mkJogos_distintos tid cid _ _ hshuf j hj
    exact ⟨h3, h4, hd, ((hperm.map (fun i => i.id)).mem_iff).mp h5,
      ((hperm.map (fun i => i.id)).mem_iff).mp h6⟩
  · intro hodd
    rw [hnovos]
    have hpred : ∀ i : Inscricao,
        (!assignedIn (mkJogos tid cid s.nextJogoId (shuffle (confirmadas s tid cid))) i.id) =
        (!decide (i.id ∈ pairedIds (shuffle (confirmadas s tid cid)))) := by
      intro i
      rw [assignedIn_mkJogos]
    calc ((confirmadas s tid cid).filter (fun i =>
            !assignedIn (mkJogos tid cid s.nextJogoId (shuffle (confirmadas s tid cid)))
              i.id)).length
        = List.countP (fun i =>
            !assignedIn (mkJogos tid cid s.nextJogoId (shuffle (confirmadas s tid cid)))
              i.id) (confirmadas s tid cid) := (List.countP_eq_length_filter _ _).symm
      _ = List.countP (fun i =>
            !assignedIn (mkJogos tid cid s.nextJogoId (shuffle (confirmadas s tid cid)))
              i.id) (shuffle (confirmadas s tid cid)) := (hperm.countP_eq _).symm
      _ = ((shuffle (confirmadas s tid cid)).filter (fun i =>
            !assignedIn (mkJogos tid cid s.nextJogoId (shuffle (confirmadas s tid cid)))
              i.id)).length := List.countP_eq_length_filter _ _
      _ = ((shuffle (confirmadas s tid cid)).filter (fun i =>
            !decide (i.id ∈ pairedIds (shuffle (confirmadas s tid cid))))).length := by
            rw [List.filter_congr (fun i _ => hpred i)]
      _ = (shuffle (confirmadas s tid cid)).length % 2 :=
            length_filter_nao_pareado _ hshuf
      _ = (confirmadas s tid cid).length % 2 := by rw [hperm.length_eq]
      _ = 1 := hodd

/-- A store with three confirmed registrations for tournament 1, category 1,
used for concrete evaluations. -/
def storeTresInscricoes : Store :=
  { emptyStore with inscricoes := [insc 1 1, insc 2 2, insc 3 3],
                    nextInscricaoId := 4 }

theorem C1_gerar_jogos_witness :
    ((id (confirmadas storeTresInscricoes 1 1)).Perm
        (confirmadas storeTresInscricoes 1 1) ∧
      (storeTresInscricoes.inscricoes.map (fun i => i.id)).Nodup ∧
      2 ≤ (confirmadas storeTresInscricoes 1 1).length) ∧
    ((gerar_chaveamento storeTresInscricoes 1 1 id).1 = 201 ∧
      ((gerar_chaveamento storeTresInscricoes 1 1 id).2.jogos.drop
          storeTresInscricoes.jogos.length).length =
        (confirmadas storeTresInscricoes 1 1).length / 2 ∧
      (∀ j ∈ (gerar_chaveamento storeTresInscricoes 1 1 id).2.jogos.drop
          storeTresInscricoes.jogos.length,
        j.fase = "primeira_fase" ∧ j.rodada = 1 ∧ j.equipe1_id ≠ j.equipe2_id ∧
        j.equipe1_id ∈ (confirmadas storeTresInscricoes 1 1).map (fun i => i.id) ∧
        j.equipe2_id ∈ (confirmadas storeTresInscricoes 1 1).map (fun i => i.id)) ∧
      ((confirmadas storeTresInscricoes 1 1).length % 2 = 1 →
        ((confirmadas storeTresInscricoes 1 1).filter (fun i =>
          !assignedIn ((gerar_chaveamento storeTresInscricoes 1 1 id).2.jogos.drop
            storeTresInscricoes.jogos.length) i.id)).length = 1)) :=
  ⟨⟨List.Perm.refl _, by decide, by decide⟩,
    C1_gerar_jogos storeTresInscricoes 1 1 id (List.Perm.refl _) (by decide) (by decide)⟩

/-- Overwriting a bracket row in place does not change the row ids. -/
theorem updateChaveamento_map_id (tid cid : Nat) (e : Estrutura) (now : Nat) :
    ∀ l : List Chaveamento,
      (updateChaveamento tid cid e now l).map (fun c => c.id) = l.map (fun c => c.id)
  | [] => rfl
  | c :: rest => by
    by_cases h : (c.torneio_id == tid && c.categoria_id == cid) = true
    · simp [updateChaveamento, h]
    · simp [updateChaveamento, h, updateChaveamento_map_id tid cid e now rest]

/-- Overwriting a bracket row in place does not change how many rows match
the (tournament, category) pair. -/
theorem updateChaveamento_countP (tid cid : Nat) (e : Estrutura) (now : Nat) :
    ∀ l : List Chaveamento,
      (updateChaveamento tid cid e now l).countP
          (fun c => c.torneio_id == tid && c.categoria_id == cid) =
        l.countP (fun c => c.torneio_id == tid && c.categoria_id == cid)
  | [] => rfl
  | c :: rest => by
    by_cases h : (c.torneio_id == tid && c.categoria_id == cid) = true
    · simp [updateChaveamento, h, List.countP_cons]
    · simp [updateChaveamento, h, List.countP_cons,
        updateChaveamento_countP tid cid e now rest]

/-- The row found for the pair is overwritten in place: after the update
the list contains that row with the new structure and timestamp. -/
theorem updateChaveamento_find? (tid cid : Nat) (e : Estrutura) (now : Nat) :
    ∀ (l : List Chaveamento) (c : Chaveamento),
      l.find? (fun c => c.torneio_id == tid && c.categoria_id == cid) = some c →
      (updateChaveamento tid cid e now l).find?
          (fun c => c.torneio_id == tid && c.categoria_id == cid) =
        some ({ c with estrutura := e, data_atualizacao := now })
  | [], c, h => by simp at h
  | c0 :: rest, c, h => by
    rw [List.find?_cons] at h
    by_cases hq : (c0.torneio_id == tid && c0.categoria_id == cid) = true
    · rw [hq] at h
      obtain rfl : c0 = c := Option.some_injective _ h
      rw [show updateChaveamento tid cid e now (c0 :: rest) =
          ({ c0 with estrutura := e, data_atualizacao := now }) :: rest by
        simp [updateChaveamento, hq]]
      rw [List.find?_cons]
      simp only [Bool.and_eq_true] at hq ⊢
      simp [hq.1, hq.2]
    · rw [Bool.not_eq_true] at hq
      rw [hq] at h
      rw [show updateChaveamento tid cid e now (c0 :: rest) =
          c0 :: updateChaveamento tid cid e now rest by
        simp [updateChaveamento, hq]]
      rw [List.find?_cons, hq]
      exact updateChaveamento_find? tid cid e now rest c h

/-- C3: when a bracket row already exists for the pair, a successful
generation returns 201, keeps the bracket table's ids unchanged (same row
id, no new row), overwrites that row's structure with the new shuffled
participant list and refreshes its timestamp to the current time, and the
number of bracket rows for the pair is unchanged — so at most one bracket
per pair is preserved. -/
theorem C3_regenerar_sobrescreve (s : Store) (tid cid : Nat)
    (shuffle : List Inscricao → List Inscricao) (c : Chaveamento)
    (hc : s.chaveamentos.find? (fun c => c.torneio_id == tid && c.categoria_id == cid) =
      some c)
    (hN : 2 ≤ (confirmadas s tid cid).length) :
    (gerar_chaveamento s tid cid shuffle).1 = 201 ∧
    (gerar_chaveamento s tid cid shuffle).2.chaveamentos.map (fun x => x.id) =
      s.chaveamentos.map (fun x => x.id) ∧
    ({ c with
        estrutura := { participantes := shuffle (confirmadas s tid cid), fases := [],
                       tipo := "eliminacao_simples" },
        data_atualizacao := s.now } : Chaveamento) ∈
      (gerar_chaveamento s tid cid shuffle).2.chaveamentos ∧
    (gerar_chaveamento s tid cid shuffle).2.chaveamentos.countP
        (fun x => x.torneio_id == tid && x.categoria_id == cid) =
      s.chaveamentos.countP (fun x => x.torneio_id == tid && x.categoria_id == cid) := by
  have hup : (upsertChaveamento s tid cid
      { participantes := shuffle (confirmadas s tid cid), fases := [],
        tipo := "eliminacao_simples" }).chaveamentos =
      updateChaveamento tid cid
        { participantes := shuffle (confirmadas s tid cid), fases := [],
          tipo := "eliminacao_simples" } s.now s.chaveamentos := by
    unfold upsertChaveamento
    rw [hc]
  have hs' : (gerar_chaveamento s tid cid shuffle).2.chaveamentos =
      updateChaveamento tid cid
        { participantes := shuffle (confirmadas s tid cid), fases := [],
          tipo := "eliminacao_simples" } s.now s.chaveamentos := by
    rw [gerar_chaveamento_sucesso s tid cid shuffle hN]
    exact hup
  refine ⟨by rw [gerar_chaveamento_sucesso s tid cid shuffle hN], ?_, ?_, ?_⟩
  · rw [hs', updateChaveamento_map_id]
  · rw [hs']
    exact List.mem_of_find?_eq_some (updateChaveamento_find? tid cid _ s.now _ c hc)
  · rw [hs', updateChaveamento_countP]

/-- A pre-existing bracket row for tournament 1, category 1, used for
concrete evaluations. -/
def chav0 : Chaveamento :=
  { id := 9, torneio_id := 1, categoria_id := 1,
    estrutura := { participantes := [], fases := [], tipo := "eliminacao_simples" },
    data_atualizacao := 0 }

/-- A store with an existing bracket and two confirmed registrations. -/
def storeComChaveamento : Store :=
  { emptyStore with inscricoes := [insc 1 1, insc 2 2], nextInscricaoId := 3,
                    chaveamentos := [chav0], nextChaveamentoId := 10, now := 42 }

theorem C3_regenerar_sobrescreve_witness :
    (storeComChaveamento.chaveamentos.find?
        (fun c => c.torneio_id == 1 && c.categoria_id == 1) = some chav0 ∧
      2 ≤ (confirmadas storeComChaveamento 1 1).length) ∧
    ((gerar_chaveamento storeComChaveamento 1 1 id).1 = 201 ∧
      (gerar_chaveamento storeComChaveamento 1 1 id).2.chaveamentos.map (fun x => x.id) =
        storeComChaveamento.chaveamentos.map (fun x => x.id) ∧
      ({ chav0 with
          estrutura := { participantes := id (confirmadas storeComChaveamento 1 1),
                         fases := [], tipo := "eliminacao_simples" },
          data_atualizacao := storeComChaveamento.now } : Chaveamento) ∈
        (gerar_chaveamento storeComChaveamento 1 1 id).2.chaveamentos ∧
      (gerar_chaveamento storeComChaveamento 1 1 id).2.chaveamentos.countP
          (fun x => x.torneio_id == 1 && x.categoria_id == 1) =
        storeComChaveamento.chaveamentos.countP
          (fun x => x.torneio_id == 1 && x.categoria_id == 1)) :=
  ⟨⟨by decide, by decide⟩,
    C3_regenerar_sobrescreve storeComChaveamento 1 1 id chav0 (by decide) (by decide)⟩

/-- After the upsert there is always a bracket row for the pair. -/
theorem upsertChaveamento_find? (s : Store) (tid cid : Nat) (e : Estrutura) :
    ((upsertChaveamento s tid cid e).chaveamentos.find?
      (fun c => c.torneio_id == tid && c.categoria_id == cid)).isSome := by
  unfold upsertChaveamento
  cases hf : s.chaveamentos.find? (fun c => c.torneio_id == tid && c.categoria_id == cid) with
  | some c =>
    simp only
    rw [updateChaveamento_find? tid cid e s.now s.chaveamentos c hf]
    rfl
  | none =>
    simp only
    rw [List.find?_append, hf]
    simp

/-- C4: a successful generation only appends match rows: every match row
previously stored is still there, unmodified and in place, and the
bracket-fetch endpoint afterwards returns the old matches of the pair
followed by the newly created ones. -/
theorem C4_regenerar_preserva_jogos (s : Store) (tid cid : Nat)
    (shuffle : List Inscricao → List Inscricao)
    (hN : 2 ≤ (confirmadas s tid cid).length) :
    (gerar_chaveamento s tid cid shuffle).2.jogos =
      s.jogos ++ (gerar_chaveamento s tid cid shuffle).2.jogos.drop s.jogos.length ∧
    (∃ c, get_chaveamento (gerar_chaveamento s tid cid shuffle).2 tid cid =
      some (c,
        s.jogos.filter (fun j => j.torneio_id == tid && j.categoria_id == cid) ++
          (gerar_chaveamento s tid cid shuffle).2.jogos.drop s.jogos.length)) := by
  have hnovos := gerar_chaveamento_novos s tid cid shuffle hN
  have hsucc := gerar_chaveamento_sucesso s tid cid shuffle hN
  constructor
  · rw [hnovos, hsucc]
  · have hchav : (gerar_chaveamento s tid cid shuffle).2.chaveamentos =
        (upsertChaveamento s tid cid
          { participantes := shuffle (confirmadas s tid cid), fases := [],
            tipo := "eliminacao_simples" }).chaveamentos := by
      rw [hsucc]
    obtain ⟨c, hc⟩ := Option.isSome_iff_exists.mp
      (upsertChaveamento_find? s tid cid
        { participantes := shuffle (confirmadas s tid cid), fases := [],
          tipo := "eliminacao_simples" })
    refine ⟨c, ?_⟩
    unfold get_chaveamento
    rw [hchav, hc]
    have hjogos : (gerar_chaveamento s tid cid shuffle).2.jogos =
        s.jogos ++ mkJogos tid cid s.nextJogoId (shuffle (confirmadas s tid cid)) := by
      rw [hsucc]
    have hfiltro : (mkJogos tid cid s.nextJogoId (shuffle (confirmadas s tid cid))).filter
        (fun j => j.torneio_id == tid && j.categoria_id == cid) =
        mkJogos tid cid s.nextJogoId (shuffle (confirmadas s tid cid)) := by
      rw [List.filter_eq_self]
      intro j hj
      obtain ⟨h1, h2, -⟩ := mkJogos_mem tid cid _ _ j hj
      simp [h1, h2]
    rw [hnovos, hjogos, List.filter_append, hfiltro]

theorem C4_regenerar_preserva_jogos_witness :
    (2 ≤ (confirmadas storeComChaveamento 1 1).length) ∧
    ((gerar_chaveamento storeComChaveamento 1 1 id).2.jogos =
      storeComChaveamento.jogos ++
        (gerar_chaveamento storeComChaveamento 1 1 id).2.jogos.drop
          storeComChaveamento.jogos.length ∧
    (∃ c, get_chaveamento (gerar_chaveamento storeComChaveamento 1 1 id).2 1 1 =
      some (c,
        storeComChaveamento.jogos.filter
            (fun j => j.torneio_id == 1 && j.categoria_id == 1) ++
          (gerar_chaveamento storeComChaveamento 1 1 id).2.jogos.drop
            storeComChaveamento.jogos.length))) :=
  ⟨by decide, C4_regenerar_preserva_jogos storeComChaveamento 1 1 id (by decide)⟩

end FootTable
